import Mathlib

/-!
Verification development for the `RegressionErrorBiasTable` migration adapter
(`MIGRATION_EXAMPLE_ERROR_BIAS_TABLE.py`).

The module under study declares a new-API metric class `RegressionErrorBiasTable`
(a plain data holder with fields `regression_name`, `columns`, `top_error`) and an
adapter `RegressionErrorBiasTableCalculation` bridging it to the legacy metric:
`legacy_metric` forwards the declaration's fields into the legacy constructor,
`task_name` returns the declared regression name, `calculate_value` reduces the
legacy result's `error_bias` mapping to a scalar (its entry count, 0.0 when the
mapping is `None` or empty), `get_additional_widgets` returns the empty list, and
`_gen_input_data` delegates to a helper `_gen_regression_input_data` that the
module never defines or imports.

Python floats produced here are exact casts of small nonnegative integers, so the
scalar is modelled in `ℚ`; Python `dict`s are modelled as association lists (only
their size and membership matter here); exceptions are modelled with `Except`.
-/

/-- Errors that the adapter's input-resolution path can surface.  `nameError`
models Python's `NameError` (unresolved global name); `taskNotFound` models the
error for an unregistered regression task. -/
inductive PyError : Type where
  | nameError : PyError
  | taskNotFound : PyError
deriving DecidableEq, Repr

/-- The new-API metric declaration (`class RegressionErrorBiasTable`, source
lines 48-82): `regression_name : str = "default"`, `columns : Optional[List[str]] = None`,
`top_error : Optional[float] = None`.  Field defaults mirror the Python class
attribute defaults used by a no-argument construction. -/
structure RegressionErrorBiasTable : Type where
  regression_name : String := "default"
  columns : Option (List String) := none
  top_error : Option ℚ := none
deriving DecidableEq, Repr

/-- The legacy metric's constructor shape, as instantiated by `legacy_metric`:
`LegacyRegressionErrorBiasTable(columns=..., top_error=...)`. The legacy class
itself is an opaque external collaborator; only the request fields handed to it
are modelled. -/
structure LegacyRegressionErrorBiasTable : Type where
  columns : Option (List String)
  top_error : Option ℚ
deriving DecidableEq, Repr

/-- The legacy result (`RegressionErrorBiasTableResults`): a structure containing
`error_bias`, an optional mapping from feature name to per-feature bias
statistics (of opaque type `α`), plus auxiliary plotting data (of opaque type
`β`).  `calculate_value` reads only `error_bias`. -/
structure RegressionErrorBiasTableResults (α β : Type) : Type where
  error_bias : Option (List (String × α))
  current_plot_data : β
deriving DecidableEq, Repr

/-- A rendering artifact (`BaseWidgetInfo`), opaque to the adapter beyond being
list elements that are forwarded. -/
structure BaseWidgetInfo : Type where
  title : String
deriving DecidableEq, Repr

/-- The report execution context, modelled by the one capability the claims
need: the registry of named regression tasks, each mapping a task name to its
(target, prediction) column pair. -/
structure Context : Type where
  regression_tasks : List (String × String × String)
deriving DecidableEq, Repr

/-- Looks up the (target, prediction) columns registered under a task name in
the context. -/
def lookupTask (ctx : Context) (t : String) : Option (String × String) :=
  (ctx.regression_tasks.find? (fun p => p.1 == t)).map (fun p => p.2)

/-- The scalar metric result (`SingleValue`): a single published value. -/
structure SingleValue : Type where
  value : ℚ
deriving DecidableEq, Repr

/-- Modelled from the spec: the input columns produced by task-input resolution
(the spec's `resolve_task_inputs(context, task_name) -> InputColumns`); the
concrete `InputData` type lives in the external `evidently.legacy.base_metric`
module, absent from the sources, and only its target/prediction content is
described. -/
structure InputData : Type where
  target : String
  prediction : String
deriving DecidableEq, Repr

/-- The adapter (`class RegressionErrorBiasTableCalculation`): it carries the
metric declaration it was built over (`self.metric`, provided by the
`LegacyMetricCalculation` base class). -/
structure RegressionErrorBiasTableCalculation : Type where
  metric : RegressionErrorBiasTable
deriving DecidableEq, Repr

namespace RegressionErrorBiasTableCalculation

/-- Wrapping of a scalar into the metric result (`self.result(value)`). -/
def result (value : ℚ) : SingleValue :=
  ⟨value⟩

/-- Source lines 96-106: `legacy_metric` instantiates the legacy metric with the
declaration's `columns` and `top_error`, unchanged. -/
def legacy_metric (self : RegressionErrorBiasTableCalculation) :
    LegacyRegressionErrorBiasTable :=
  ⟨self.metric.columns, self.metric.top_error⟩

/-- Source lines 108-115: `task_name` returns `self.metric.regression_name`. -/
def task_name (self : RegressionErrorBiasTableCalculation) : String :=
  self.metric.regression_name

/-- Source lines 117-149: `calculate_value` reduces the legacy result to a
scalar: `0.0` when `error_bias is None or len(error_bias) == 0`, otherwise
`float(len(error_bias))`; the context and render widgets are received but not
read. -/
def calculate_value {α β : Type} (_self : RegressionErrorBiasTableCalculation)
    (_context : Context) (legacy_result : RegressionErrorBiasTableResults α β)
    (_render : List BaseWidgetInfo) : SingleValue :=
  let value : ℚ :=
    match legacy_result.error_bias with
    | none => 0
    | some m => if m.length = 0 then 0 else (m.length : ℚ)
  result value

/-- Source lines 165-175: `get_additional_widgets` returns the empty list. -/
def get_additional_widgets (_self : RegressionErrorBiasTableCalculation)
    (_context : Context) : List BaseWidgetInfo :=
  []

/-- Source lines 177-179: `display_name` returns the fixed UI name. -/
def display_name (_self : RegressionErrorBiasTableCalculation) : String :=
  "Regression Error Bias Table"

end RegressionErrorBiasTableCalculation

/-- The global names bound at module level in
`MIGRATION_EXAMPLE_ERROR_BIAS_TABLE.py`: the imports of lines 24-44 and the two
class statements.  Python resolves a function body's free names against these
bindings (then builtins) at call time. -/
def moduleGlobalBindings : List String :=
  ["List", "Optional", "Dict", "Tuple", "TypeVar", "Generic", "abc",
   "SingleValue", "SingleValueMetric", "MetricResult", "get_default_render",
   "get_default_render_ref", "Context", "InputData", "BaseWidgetInfo",
   "LegacyMetricCalculation", "LegacyRegressionErrorBiasTable",
   "RegressionErrorBiasTableResults", "RegressionErrorBiasTable",
   "RegressionErrorBiasTableCalculation"]

/-- Modelled from the spec: the helper `_gen_regression_input_data` that
`_gen_input_data` invokes is defined nowhere in the sources; per the spec's
`resolve_task_inputs(context, task_name)` it looks up the target/prediction
columns registered under `task_name` in the execution context and fails with
`TaskNotFound` when no regression task with that name was registered. -/
def gen_regression_input_data (ctx : Context) (t : String) :
    Except PyError InputData :=
  match lookupTask ctx t with
  | some cols => Except.ok ⟨cols.1, cols.2⟩
  | none => Except.error PyError.taskNotFound

/-- Source lines 151-163: `_gen_input_data(context, task_name)` evaluates the
free name `_gen_regression_input_data` against the module's global bindings (it
is not a builtin); if the name resolves the helper is called, otherwise Python
raises `NameError`. -/
def gen_input_data (ctx : Context) (t : String) : Except PyError InputData :=
  if "_gen_regression_input_data" ∈ moduleGlobalBindings then
    gen_regression_input_data ctx t
  else
    Except.error PyError.nameError

/-- Spec-side reduction measure: the number of entries in the legacy result's
feature-bias mapping, zero when the mapping is absent. -/
def biasEntryCount {α β : Type} (r : RegressionErrorBiasTableResults α β) : ℕ :=
  match r.error_bias with
  | none => 0
  | some m => m.length

/-- Modelled from the spec: the base class assembles the report's widgets by
forwarding the legacy renderer's artifacts followed by the adapter's additional
widgets (`forward_render_artifacts(legacy_render) -> sequence`). -/
def forward_render_artifacts (self : RegressionErrorBiasTableCalculation)
    (ctx : Context) (legacy_render : List BaseWidgetInfo) : List BaseWidgetInfo :=
  legacy_render ++ self.get_additional_widgets ctx

/-- The state an adapter call can see: the declaration it was built over and the
legacy result handed to it.  Each method is replayed as a state-passing
operation to record what it leaves behind. -/
structure AdapterState (α β : Type) : Type where
  calculation : RegressionErrorBiasTableCalculation
  legacy_result : RegressionErrorBiasTableResults α β
deriving DecidableEq, Repr

/-- State-passing replay of `legacy_metric`: the method body contains no
attribute assignment, so the state is threaded through unchanged. -/
def legacy_metricOp {α β : Type} (s : AdapterState α β) :
    LegacyRegressionErrorBiasTable × AdapterState α β :=
  (s.calculation.legacy_metric, s)

/-- State-passing replay of `task_name`. -/
def task_nameOp {α β : Type} (s : AdapterState α β) :
    String × AdapterState α β :=
  (s.calculation.task_name, s)

/-- State-passing replay of `calculate_value`. -/
def calculate_valueOp {α β : Type} (ctx : Context) (w : List BaseWidgetInfo)
    (s : AdapterState α β) : SingleValue × AdapterState α β :=
  (s.calculation.calculate_value ctx s.legacy_result w, s)

/-- State-passing replay of `get_additional_widgets`. -/
def get_additional_widgetsOp {α β : Type} (ctx : Context)
    (s : AdapterState α β) : List BaseWidgetInfo × AdapterState α β :=
  (s.calculation.get_additional_widgets ctx, s)

-- Theorems ------------------------------------------------------------------

/-- Helper: `calculate_value` is `result` of the bias-entry count, for every
context, result and widget list. -/
theorem calculate_value_eq_count {α β : Type}
    (s : RegressionErrorBiasTableCalculation) (ctx : Context)
    (r : RegressionErrorBiasTableResults α β) (w : List BaseWidgetInfo) :
    s.calculate_value ctx r w =
      RegressionErrorBiasTableCalculation.result ((biasEntryCount r : ℚ)) := by
  unfold RegressionErrorBiasTableCalculation.calculate_value biasEntryCount
  cases r.error_bias with
  | none => rfl
  | some m =>
    by_cases hm : m.length = 0 <;>
      simp [RegressionErrorBiasTableCalculation.result, hm]

/-- C1: for every legacy result, `calculate_value` publishes exactly the number
of entries of the feature-bias mapping cast into the scalar domain — `0.0` when
the mapping is `None` (zero entries) or empty, and `float(N)` for a mapping with
`N` entries — independent of the context and widgets passed in. -/
theorem calculate_value_returns_entry_count {α β : Type}
    (s : RegressionErrorBiasTableCalculation) (ctx : Context)
    (r : RegressionErrorBiasTableResults α β) (w : List BaseWidgetInfo) :
    (s.calculate_value ctx r w).value = (biasEntryCount r : ℚ) := by
  rw [calculate_value_eq_count]
  rfl

/-- C2 (evaluation at the failing input): even on a context in which a
regression task named `"default"` is registered with target/prediction columns,
`_gen_input_data` does not perform the lookup (and does not raise
`TaskNotFound`): it raises `NameError`, because `_gen_regression_input_data` is
unbound in the module. -/
theorem gen_input_data_nameError_even_when_registered :
    gen_input_data ⟨[("default", "target", "prediction")]⟩ "default" =
      Except.error PyError.nameError := rfl

/-- C3: for every context and every task-name argument, `_gen_input_data`
raises `NameError`: the helper `_gen_regression_input_data` it invokes is
neither defined nor imported anywhere in the module. -/
theorem gen_input_data_always_nameError (ctx : Context) (t : String) :
    gen_input_data ctx t = Except.error PyError.nameError := rfl

/-- C4: the published scalar is a deterministic, pure function of the size of
the legacy result's feature-bias mapping alone: any two legacy results whose
mappings have the same number of entries yield the same result, regardless of
mapping iteration order, of the adapter instance, of the context, and of the
render widgets passed in. -/
theorem calculate_value_deterministic {α β γ δ : Type}
    (s₁ s₂ : RegressionErrorBiasTableCalculation) (c₁ c₂ : Context)
    (r₁ : RegressionErrorBiasTableResults α β)
    (r₂ : RegressionErrorBiasTableResults γ δ)
    (w₁ w₂ : List BaseWidgetInfo)
    (h : biasEntryCount r₁ = biasEntryCount r₂) :
    s₁.calculate_value c₁ r₁ w₁ = s₂.calculate_value c₂ r₂ w₂ := by
  rw [calculate_value_eq_count, calculate_value_eq_count, h]

/-- Witness for C4: two legacy results whose two-entry mappings list `age` and
`income` in opposite iteration orders, under different contexts and widget
lists, publish the same scalar. -/
theorem calculate_value_deterministic_witness :
    RegressionErrorBiasTableCalculation.calculate_value ⟨⟨"default", none, none⟩⟩
        ⟨[]⟩ (⟨some [("age", ()), ("income", ())], ()⟩ :
          RegressionErrorBiasTableResults Unit Unit) [] =
      RegressionErrorBiasTableCalculation.calculate_value
        ⟨⟨"pricing_model", some ["age"], some (1/10)⟩⟩
        ⟨[("default", "target", "prediction")]⟩
        (⟨some [("income", ()), ("age", ())], ()⟩ :
          RegressionErrorBiasTableResults Unit Unit) [⟨"w"⟩] :=
  calculate_value_deterministic _ _ _ _ _ _ _ _ rfl

/-- C5: `legacy_metric` is a pure mapping forwarding the declaration's
`columns` and `top_error` unchanged into the legacy constructor, with no
validation of its own: the equations hold for every declaration, including any
whose `top_error` lies outside `[0, 1/2]`. -/
theorem legacy_metric_forwards_fields (s : RegressionErrorBiasTableCalculation) :
    s.legacy_metric.columns = s.metric.columns ∧
      s.legacy_metric.top_error = s.metric.top_error :=
  ⟨rfl, rfl⟩

/-- C6: for every legacy result (whatever columns the declaration restricted the
analysis to), the scalar produced by the adapter is non-negative. -/
theorem calculate_value_nonneg {α β : Type}
    (s : RegressionErrorBiasTableCalculation) (ctx : Context)
    (r : RegressionErrorBiasTableResults α β) (w : List BaseWidgetInfo) :
    0 ≤ (s.calculate_value ctx r w).value := by
  rw [calculate_value_eq_count]
  exact Nat.cast_nonneg _

/-- C7: render-artifact forwarding is an identity pass-through: for every
context `get_additional_widgets` returns the empty list, so the legacy
renderer's artifacts reach the report unchanged. -/
theorem get_additional_widgets_empty (s : RegressionErrorBiasTableCalculation)
    (ctx : Context) :
    s.get_additional_widgets ctx = [] ∧
      ∀ legacy_render : List BaseWidgetInfo,
        forward_render_artifacts s ctx legacy_render = legacy_render :=
  ⟨rfl, fun legacy_render => List.append_nil legacy_render⟩

/-- C8: every adapter operation leaves the whole adapter state — the metric
declaration's `regression_name`/`columns`/`top_error` fields and the legacy
result's bias mapping — unchanged; the adapter holds no mutable state across
calls. -/
theorem adapter_ops_preserve_state {α β : Type} (ctx : Context)
    (w : List BaseWidgetInfo) (s : AdapterState α β) :
    (legacy_metricOp s).2 = s ∧ (task_nameOp s).2 = s ∧
      (calculate_valueOp ctx w s).2 = s ∧
      (get_additional_widgetsOp ctx s).2 = s ∧
      (calculate_valueOp ctx w s).2.calculation.metric = s.calculation.metric ∧
      (calculate_valueOp ctx w s).2.legacy_result.error_bias =
        s.legacy_result.error_bias :=
  ⟨rfl, rfl, rfl, rfl, rfl, rfl⟩

/-- C9: the legacy request does not depend on the declaration's
`regression_name`: two declarations agreeing on `columns` and `top_error`
produce identical legacy requests, while `task_name` returns exactly the
declared `regression_name`. -/
theorem legacy_metric_ignores_regression_name
    (d₁ d₂ : RegressionErrorBiasTable) (hc : d₁.columns = d₂.columns)
    (ht : d₁.top_error = d₂.top_error) :
    RegressionErrorBiasTableCalculation.legacy_metric ⟨d₁⟩ =
        RegressionErrorBiasTableCalculation.legacy_metric ⟨d₂⟩ ∧
      RegressionErrorBiasTableCalculation.task_name ⟨d₁⟩ = d₁.regression_name ∧
      RegressionErrorBiasTableCalculation.task_name ⟨d₂⟩ = d₂.regression_name := by
  refine ⟨?_, rfl, rfl⟩
  unfold RegressionErrorBiasTableCalculation.legacy_metric
  rw [hc, ht]

/-- Witness for C9: two declarations differing only in `regression_name`
(`"default"` versus `"pricing_model"`) yield the same legacy request. -/
theorem legacy_metric_ignores_regression_name_witness :
    RegressionErrorBiasTableCalculation.legacy_metric
        ⟨⟨"default", some ["age"], some (1/10)⟩⟩ =
        RegressionErrorBiasTableCalculation.legacy_metric
          ⟨⟨"pricing_model", some ["age"], some (1/10)⟩⟩ ∧
      RegressionErrorBiasTableCalculation.task_name
          ⟨⟨"default", some ["age"], some (1/10)⟩⟩ = "default" ∧
      RegressionErrorBiasTableCalculation.task_name
          ⟨⟨"pricing_model", some ["age"], some (1/10)⟩⟩ = "pricing_model" :=
  legacy_metric_ignores_regression_name _ _ rfl rfl

/-- C10: a declaration constructed with no arguments has
`regression_name = "default"`, `columns = None` and `top_error = None`, and an
adapter over it reports task name `"default"`. -/
theorem default_declaration_fields :
    ({} : RegressionErrorBiasTable).regression_name = "default" ∧
      ({} : RegressionErrorBiasTable).columns = none ∧
      ({} : RegressionErrorBiasTable).top_error = none ∧
      RegressionErrorBiasTableCalculation.task_name ⟨{}⟩ = "default" :=
  ⟨rfl, rfl, rfl, rfl⟩
